import Mathlib

/-!
Verification of the amargo pull-through caching proxy.

This file gives a shallow embedding, in Lean 4, of the parts of the
amargo code base that the specification's claims speak about:

* the SHA-256 digest used by `ArtifactService.storeWithChecksum`
  (Node's `createHash('sha256')`, i.e. FIPS 180-4), embedded as an
  executable function on byte lists;
* `ArtifactService.generateStoragePath` and its name sanitiser;
* `PypiController.normalizePackageName`;
* the relational state (repositories, artifacts, cache entries, group
  members) as defined by the Prisma migrations, together with
  `ArtifactService.storeArtifact`, `ArtifactService.deleteArtifact`,
  `CacheCleanupService.cleanupExpiredCache`;
* the group-member enumeration and the group upstream pass
  (`PypiController.tryGroupLookup` / `tryGroupUpstreamFetch`);
* `DockerController.handleBlob` (GET path).

Strings of the source are modelled as Lean `String` where only equality
and concatenation matter, and as lists of Unicode code points (`List Nat`)
where character-level processing happens (the PyPI normaliser).  Byte
streams are modelled as the full list of bytes they deliver (`List Nat`,
each element `< 256`).  JavaScript `Date.now()` timestamps are explicit
`now : Nat` parameters in milliseconds.  Database rows generated with a
fresh id take the id from a counter in the state.
-/

namespace Amargo

/-! ## SHA-256 (FIPS 180-4), as used by Node `createHash('sha256')`

The round constants and initial hash values are computed, as in the
standard, from the fractional parts of the cube roots (resp. square
roots) of the first primes. -/

/-- Truncate to a 32-bit word. -/
def w32 (x : Nat) : Nat := x % 4294967296

/-- 32-bit right rotation. -/
def rotr32 (n x : Nat) : Nat := w32 ((x >>> n) ||| (x <<< (32 - n)))

/-- Primality test by trial division (used only to derive the SHA-256
constants). -/
def isPrimeNat (n : Nat) : Bool :=
  2 ≤ n && (List.range (n - 2)).all (fun d => n % (d + 2) ≠ 0)

/-- The first 64 primes. -/
def primes64 : List Nat := ((List.range 400).filter isPrimeNat).take 64

/-- Integer cube root by binary search (enough bits for the SHA-256
constant derivation). -/
def icbrt (n : Nat) : Nat :=
  (List.range 40).foldl
    (fun r i =>
      let c := r + 2 ^ (39 - i)
      if c * c * c ≤ n then c else r)
    0

/-- SHA-256 round constants: first 32 bits of the fractional parts of the
cube roots of the first 64 primes. -/
def sha256K : List Nat := primes64.map (fun p => w32 (icbrt (p * 2 ^ 96)))

/-- The running hash state: eight 32-bit words. -/
structure Hash8 where
  a : Nat
  b : Nat
  c : Nat
  d : Nat
  e : Nat
  f : Nat
  g : Nat
  h : Nat
deriving Repr, DecidableEq

/-- SHA-256 initial hash value: first 32 bits of the fractional parts of
the square roots of the first 8 primes. -/
def sha256init : Hash8 :=
  match (primes64.take 8).map (fun p => w32 (Nat.sqrt (p * 2 ^ 64))) with
  | [a, b, c, d, e, f, g, h] => ⟨a, b, c, d, e, f, g, h⟩
  | _ => ⟨0, 0, 0, 0, 0, 0, 0, 0⟩

/-- SHA-256 padding: append `0x80`, zeros, and the 8-byte big-endian bit
length, reaching a multiple of 64 bytes. -/
def padMsg (msg : List Nat) : List Nat :=
  let len := msg.length
  let zeros := (120 - (len + 1) % 64) % 64
  let bitLen := len * 8
  msg ++ [128] ++ List.replicate zeros 0 ++
    [w32 (bitLen >>> 56) % 256, (bitLen >>> 48) % 256, (bitLen >>> 40) % 256,
     (bitLen >>> 32) % 256, (bitLen >>> 24) % 256, (bitLen >>> 16) % 256,
     (bitLen >>> 8) % 256, bitLen % 256]

/-- Split off the first `n` elements in one structural pass. -/
def splitChunk : Nat → List Nat → List Nat × List Nat
  | 0, l => ([], l)
  | _ + 1, [] => ([], [])
  | n + 1, x :: xs =>
    let r := splitChunk n xs
    (x :: r.1, r.2)

/-- Chunking worker, structurally recursive on a fuel bound (one unit of
fuel per chunk; the input's length always suffices). -/
def chunksGo : Nat → List Nat → List (List Nat)
  | _, [] => []
  | 0, _ => []
  | fuel + 1, x :: xs =>
    let s := splitChunk 64 (x :: xs)
    s.1 :: chunksGo fuel s.2

/-- Split a byte list into 64-byte chunks. -/
def chunks64 (l : List Nat) : List (List Nat) := chunksGo l.length l

/-- Combine bytes, four at a time big-endian, into 32-bit words. -/
def toWords : List Nat → List Nat
  | b0 :: b1 :: b2 :: b3 :: rest =>
      (b0 * 2 ^ 24 + b1 * 2 ^ 16 + b2 * 2 ^ 8 + b3) :: toWords rest
  | _ => []

/-- The SHA-256 message schedule: extend the 16 block words to 64. -/
def schedule (block : List Nat) : List Nat :=
  (List.range 48).foldl
    (fun w _ =>
      let t := w.length
      let s0 :=
        let x := w.getD (t - 15) 0
        rotr32 7 x ^^^ rotr32 18 x ^^^ (x >>> 3)
      let s1 :=
        let x := w.getD (t - 2) 0
        rotr32 17 x ^^^ rotr32 19 x ^^^ (x >>> 10)
      w ++ [w32 (w.getD (t - 16) 0 + s0 + w.getD (t - 7) 0 + s1)])
    (toWords block)

/-- One SHA-256 round. -/
def sha256round (st : Hash8) (kw : Nat × Nat) : Hash8 :=
  let S1 := rotr32 6 st.e ^^^ rotr32 11 st.e ^^^ rotr32 25 st.e
  let ch := (st.e &&& st.f) ^^^ ((4294967295 - st.e) &&& st.g)
  let temp1 := w32 (st.h + S1 + ch + kw.1 + kw.2)
  let S0 := rotr32 2 st.a ^^^ rotr32 13 st.a ^^^ rotr32 22 st.a
  let maj := (st.a &&& st.b) ^^^ (st.a &&& st.c) ^^^ (st.b &&& st.c)
  let temp2 := w32 (S0 + maj)
  ⟨w32 (temp1 + temp2), st.a, st.b, st.c, w32 (st.d + temp1), st.e, st.f, st.g⟩

/-- Compress one 64-byte block into the running hash state. -/
def compressBlock (st : Hash8) (block : List Nat) : Hash8 :=
  let r := (sha256K.zip (schedule block)).foldl sha256round st
  ⟨w32 (st.a + r.a), w32 (st.b + r.b), w32 (st.c + r.c), w32 (st.d + r.d),
   w32 (st.e + r.e), w32 (st.f + r.f), w32 (st.g + r.g), w32 (st.h + r.h)⟩

/-- Big-endian bytes of a 32-bit word. -/
def wordBytes (x : Nat) : List Nat :=
  [(x >>> 24) % 256, (x >>> 16) % 256, (x >>> 8) % 256, x % 256]

/-- SHA-256 digest of a byte list: 32 bytes. -/
def sha256 (msg : List Nat) : List Nat :=
  let f := (chunks64 (padMsg msg)).foldl compressBlock sha256init
  wordBytes f.a ++ wordBytes f.b ++ wordBytes f.c ++ wordBytes f.d ++
    wordBytes f.e ++ wordBytes f.f ++ wordBytes f.g ++ wordBytes f.h

/-- Lower-case hexadecimal digit. -/
def hexDig (n : Nat) : Char := if n < 10 then Char.ofNat (48 + n) else Char.ofNat (87 + n)

/-- Lower-case hexadecimal rendering of a byte list. -/
def hexChars (l : List Nat) : List Char :=
  l.foldr (fun b acc => hexDig (b / 16) :: hexDig (b % 16) :: acc) []

/-- Hex-encoded SHA-256 digest, as produced by `hash.digest('hex')`. -/
def sha256hexStr (msg : List Nat) : String := String.mk (hexChars (sha256 msg))

/-! ## Storage-path derivation (`ArtifactService.generateStoragePath`) -/

/-- The character class of the sanitiser regex `[^a-zA-Z0-9@/_.-]`,
tested on a code point. -/
def isSafeCode (n : Nat) : Bool :=
  (97 ≤ n && n ≤ 122) || (65 ≤ n && n ≤ 90) || (48 ≤ n && n ≤ 57) ||
    n == 64 || n == 47 || n == 95 || n == 46 || n == 45

/-- `artifactName.replace(/[^a-zA-Z0-9@\/_.-]/g, '_')`: every character
outside the class becomes an underscore. -/
def sanitizeName (s : String) : String :=
  String.mk (s.data.map (fun c => if isSafeCode c.toNat then c else '_'))

/-- `ArtifactService.generateStoragePath`. -/
def generateStoragePath (repositoryName artifactName version : String) : String :=
  "repositories/" ++ repositoryName ++ "/" ++ sanitizeName artifactName ++ "/" ++
    version ++ "/artifact"

/-- The safe character set, spelt out the way the specification gives it:
the letters `A`–`Z` and `a`–`z`, the digits `0`–`9`, and `@ / _ . -`. -/
def specSafeCodes : List Nat :=
  List.range' 65 26 ++ List.range' 97 26 ++ List.range' 48 10 ++ [64, 47, 95, 46, 45]

/-! ## PyPI package-name normalisation
(`PypiController.normalizePackageName`)

`name.toLowerCase().replace(/[-_.]+/g, '-')`, on lists of code points.
The case mapping is modelled on the ASCII range (the range the PyPI
name grammar allows). -/

/-- Code-point lower-casing for the ASCII letters. -/
def lowerCode (n : Nat) : Nat := if 65 ≤ n ∧ n ≤ 90 then n + 32 else n

/-- Membership in the regex class `[-_.]`. -/
def isSepCode (n : Nat) : Bool := n == 45 || n == 95 || n == 46

/-- Global replacement of `/[-_.]+/` by `-`: each maximal run of class
characters becomes one dash.  The flag records whether the previous
character belonged to the current run. -/
def collapseGo : Bool → List Nat → List Nat
  | _, [] => []
  | inRun, c :: rest =>
    if isSepCode c then
      if inRun then collapseGo true rest else 45 :: collapseGo true rest
    else c :: collapseGo false rest

/-- `PypiController.normalizePackageName` on code points. -/
def normalizePackageName (name : List Nat) : List Nat :=
  collapseGo false (name.map lowerCode)

/-! ## The relational state

Rows carry the columns the claims speak about; audit columns the code
never reads back (`createdAt`, `updatedAt`, `lastAccessed`, `metadata`)
are omitted.  Per the Prisma migrations, `cache_entries` has NO foreign
key to `artifacts` (and none to `repositories`): deleting artifact rows
does not touch cache-entry rows. -/

/-- `RepositoryType` after the group migration. -/
inductive RepoType where
  | HOSTED
  | PROXY
  | GROUP
deriving Repr, DecidableEq

/-- A row of `repositories`. -/
structure RepositoryRow where
  id : String
  name : String
  rtype : RepoType
  upstreamUrl : Option String
  upstreamUsername : Option String
  upstreamPassword : Option String
  cacheTtl : Nat
deriving Repr, DecidableEq

/-- A row of `artifacts`. -/
structure ArtifactRow where
  id : String
  repositoryId : String
  name : String
  version : String
  path : String
  size : Nat
  checksum : String
  contentType : String
  cacheTtl : Option Nat
deriving Repr, DecidableEq

/-- A row of `cache_entries`. -/
structure CacheEntryRow where
  id : String
  key : String
  repositoryId : String
  artifactPath : String
  expiresAt : Nat
deriving Repr, DecidableEq

/-- A row of `repository_group_members`. -/
structure GroupMemberRow where
  groupId : String
  repositoryId : String
  priority : Nat
deriving Repr, DecidableEq

/-- The database tables plus the object store, and a counter for fresh
row ids. -/
structure Db where
  repositories : List RepositoryRow
  artifacts : List ArtifactRow
  cacheEntries : List CacheEntryRow
  groupMembers : List GroupMemberRow
  blobs : List (String × List Nat)
  nextId : Nat
deriving Repr, DecidableEq

/-- Object-store put: overwrite the key or append it. -/
def putBlob (bs : List (String × List Nat)) (k : String) (v : List Nat) :
    List (String × List Nat) :=
  if bs.any (fun p => decide (p.1 = k)) then
    bs.map (fun p => if p.1 = k then (k, v) else p)
  else bs ++ [(k, v)]

/-- Object-store get. -/
def getBlob (bs : List (String × List Nat)) (k : String) : Option (List Nat) :=
  (bs.find? (fun p => decide (p.1 = k))).map (fun p => p.2)

/-- Object-store delete. -/
def delBlob (bs : List (String × List Nat)) (k : String) : List (String × List Nat) :=
  bs.filter (fun p => decide (p.1 ≠ k))

/-- `prisma.artifact.findUnique` on the composite key
`(repositoryId, name, version)`. -/
def findArtifactRow (st : Db) (repositoryId name version : String) : Option ArtifactRow :=
  st.artifacts.find? (fun a =>
    decide (a.repositoryId = repositoryId ∧ a.name = name ∧ a.version = version))

/-- The database invariant enforced by the unique index
`artifacts_repositoryId_name_version_key`. -/
def artifactKeyUnique (st : Db) : Prop :=
  ∀ x ∈ st.artifacts, ∀ y ∈ st.artifacts,
    x.repositoryId = y.repositoryId → x.name = y.name → x.version = y.version → x = y

/-! ## `ArtifactService.storeArtifact` -/

/-- Arguments of `storeArtifact` (the `stream` argument is the byte list
it delivers). -/
structure StoreArgs where
  repositoryId : String
  name : String
  version : String
  bytes : List Nat
  contentType : String
  cacheTtl : Option Nat
deriving Repr, DecidableEq

/-- The `ArtifactInfo` record `storeArtifact` returns. -/
structure ArtifactInfo where
  id : String
  name : String
  version : String
  path : String
  size : Nat
  checksum : String
  contentType : String
deriving Repr, DecidableEq

/-- How `storeArtifact` fails: the repository lookup throws
`NotFoundException`, and Prisma `create` on a duplicate unique key throws
a unique-constraint violation. -/
inductive StoreErr where
  | repoNotFound
  | uniqueViolation
deriving Repr, DecidableEq

/-- `ArtifactService.storeArtifact`, step for step: look the repository
up (`NotFoundException` when absent, before any effect); derive the
storage path; consume the stream into the object store while hashing and
counting (`storeWithChecksum`); `prisma.artifact.create` (a duplicate
`(repositoryId, name, version)` throws, with the blob already written);
`prisma.cacheEntry.create` with key `repositoryId:name:version` and
`expiresAt = Date.now() + (cacheTtl || repository.cacheTtl) * 1000` —
the JavaScript `||`, under which a supplied `0` falls back to the
repository default. -/
def storeArtifact (st : Db) (now : Nat) (args : StoreArgs) :
    Db × Except StoreErr ArtifactInfo :=
  match st.repositories.find? (fun r => decide (r.id = args.repositoryId)) with
  | none => (st, .error .repoNotFound)
  | some repository =>
    let storagePath := generateStoragePath repository.name args.name args.version
    let checksum := sha256hexStr args.bytes
    let size := args.bytes.length
    let blobs1 := putBlob st.blobs storagePath args.bytes
    if st.artifacts.any (fun a =>
        decide (a.repositoryId = args.repositoryId ∧ a.name = args.name ∧
          a.version = args.version)) then
      ({ st with blobs := blobs1 }, .error .uniqueViolation)
    else
      let artifact : ArtifactRow :=
        { id := "id" ++ toString st.nextId, repositoryId := args.repositoryId,
          name := args.name, version := args.version, path := storagePath,
          size := size, checksum := checksum, contentType := args.contentType,
          cacheTtl := args.cacheTtl }
      if st.cacheEntries.any (fun e =>
          decide (e.key = args.repositoryId ++ ":" ++ args.name ++ ":" ++ args.version)) then
        let stA : Db :=
          { st with
            blobs := blobs1
            artifacts := st.artifacts ++ [artifact]
            nextId := st.nextId + 1 }
        (stA, .error .uniqueViolation)
      else
        let ttl :=
          match args.cacheTtl with
          | some t => if t = 0 then repository.cacheTtl else t
          | none => repository.cacheTtl
        let entry : CacheEntryRow :=
          { id := "id" ++ toString (st.nextId + 1),
            key := args.repositoryId ++ ":" ++ args.name ++ ":" ++ args.version,
            repositoryId := args.repositoryId, artifactPath := storagePath,
            expiresAt := now + ttl * 1000 }
        let stB : Db :=
          { st with
            blobs := blobs1
            artifacts := st.artifacts ++ [artifact]
            cacheEntries := st.cacheEntries ++ [entry]
            nextId := st.nextId + 2 }
        let info : ArtifactInfo :=
          { id := artifact.id, name := args.name, version := args.version,
            path := storagePath, size := size, checksum := checksum,
            contentType := args.contentType }
        (stB, .ok info)

/-- `deleteArtifact` fails with `NotFoundException` when no artifact row
matches. -/
inductive DeleteErr where
  | notFound
deriving Repr, DecidableEq

/-- `ArtifactService.deleteArtifact`: find the row by composite key
(throw `NotFoundException` when absent), delete the blob, then delete
the row.  No cascade touches `cache_entries` (no foreign key exists). -/
def deleteArtifact (st : Db) (repositoryId name version : String) :
    Db × Except DeleteErr Unit :=
  match findArtifactRow st repositoryId name version with
  | none => (st, .error .notFound)
  | some artifact =>
    let st1 : Db := { st with blobs := delBlob st.blobs artifact.path }
    ({ st1 with artifacts := st1.artifacts.filter (fun a => decide (a.id ≠ artifact.id)) },
     .ok ())

/-! ## `CacheCleanupService.cleanupExpiredCache` -/

/-- The per-entry scan of one batch: for each expired entry, look the
owning artifact up by `artifactPath` (`findFirst`); collect the paths of
found artifacts and the ids of orphaned entries. -/
def scanEntries (st : Db) (entries : List CacheEntryRow) : List String × List String :=
  entries.foldl
    (fun acc e =>
      match st.artifacts.find? (fun a => decide (a.path = e.artifactPath)) with
      | some a => (acc.1 ++ [a.path], acc.2)
      | none => (acc.1, acc.2 ++ [e.id]))
    ([], [])

/-- One iteration of the cleanup loop: fetch up to 100 expired entries,
delete the found artifacts' blobs and rows (`deleteMany` by path — with
no cascade the matching cache entries survive), and delete the orphaned
entries directly.  Returns the batch size. -/
def cleanupBatch (now : Nat) (st : Db) : Db × Nat :=
  let expired := (st.cacheEntries.filter (fun e => decide (e.expiresAt < now))).take 100
  if expired.isEmpty then (st, 0)
  else
    let scanned := scanEntries st expired
    let st1 : Db := { st with blobs := scanned.1.foldl delBlob st.blobs }
    let st2 : Db :=
      if scanned.1.isEmpty then st1
      else { st1 with artifacts := st1.artifacts.filter (fun a => !scanned.1.contains a.path) }
    let st3 : Db :=
      if scanned.2.isEmpty then st2
      else { st2 with cacheEntries := st2.cacheEntries.filter (fun e => !scanned.2.contains e.id) }
    (st3, expired.length)

/-- The batch loop of `cleanupExpiredCache`: stop on an empty batch or a
batch smaller than 100, else continue.  Structured with fuel; every
continuing batch removes at least one artifact or cache-entry row, so
`artifacts.length + cacheEntries.length + 1` rounds always suffice. -/
def cleanupLoop : Nat → Nat → Db → Db
  | 0, _, st => st
  | fuel + 1, now, st =>
    let r := cleanupBatch now st
    if r.2 = 0 ∨ r.2 < 100 then r.1 else cleanupLoop fuel now r.1

/-- `CacheCleanupService.cleanupExpiredCache`, one full pass. -/
def cleanupExpiredCache (now : Nat) (st : Db) : Db :=
  cleanupLoop (st.artifacts.length + st.cacheEntries.length + 1) now st

/-! ## Group-member enumeration and the group passes
(`PypiController.tryGroupLookup` / `tryGroupUpstreamFetch`; the Maven
controller repeats the same two functions verbatim) -/

/-- The comparison `orderBy: { priority: 'asc' }` sorts by — priority
only, no secondary key. -/
def memberLe (x y : GroupMemberRow × RepositoryRow) : Prop :=
  x.1.priority ≤ y.1.priority

instance : DecidableRel memberLe := fun x y => Nat.decLe x.1.priority y.1.priority

instance : IsTotal (GroupMemberRow × RepositoryRow) memberLe :=
  ⟨fun x y => Nat.le_total x.1.priority y.1.priority⟩

instance : IsTrans (GroupMemberRow × RepositoryRow) memberLe :=
  ⟨fun _ _ _ hxy hyz => Nat.le_trans hxy hyz⟩

/-- The group's member rows joined with their repositories
(`include: { repository: true }`), in table order. -/
def joinedMembers (st : Db) (gid : String) : List (GroupMemberRow × RepositoryRow) :=
  (st.groupMembers.filter (fun m => decide (m.groupId = gid))).filterMap
    (fun m => (st.repositories.find? (fun r => decide (r.id = m.repositoryId))).map
      (fun r => (m, r)))

/-- `findMany({ where: { groupId }, include: { repository: true },
orderBy: { priority: 'asc' } })`: a stable sort by priority of the
group's rows; the relative order of equal priorities is the table's
(the query fixes no secondary key). -/
def membersOf (st : Db) (gid : String) : List (GroupMemberRow × RepositoryRow) :=
  (joinedMembers st gid).insertionSort memberLe

/-- The proxy-member query of the upstream pass: the same ordering with
`repository: { type: 'PROXY' }` in the `where`, then the JavaScript
`.filter` keeping proxies with a truthy (non-empty) `upstreamUrl`. -/
def proxyMembersOf (st : Db) (gid : String) : List (GroupMemberRow × RepositoryRow) :=
  (((joinedMembers st gid).filter (fun x => decide (x.2.rtype = .PROXY))).insertionSort
      memberLe).filter
    (fun x => decide (x.2.rtype = .PROXY) && decide (x.2.upstreamUrl.getD "" ≠ ""))

/-- What one `fetch` of an upstream URL produces: a response with a
status and body bytes, or a thrown network error. -/
inductive FetchRes where
  | resp (status : Nat) (body : List Nat)
  | netErr
deriving Repr, DecidableEq

/-- `Response.ok`: status in the 2xx range. -/
def fetchRespOk : FetchRes → Bool
  | .resp status _ => decide (200 ≤ status) && decide (status ≤ 299)
  | .netErr => false

/-- What `tryGroupUpstreamFetch` returns on success. -/
structure GroupFetchRes where
  status : Nat
  body : List Nat
  repositoryId : String
  repositoryName : String
  upstreamUrl : String
deriving Repr, DecidableEq

/-- The body of the member loop of `PypiController.tryGroupUpstreamFetch`:
build `${upstream}/packages/${packagePath}`, fetch it, and succeed only
on `response.ok`; a non-2xx status or a thrown network error is logged
and falls through to the next member. -/
def memberFetch (fetch : String → FetchRes) (packagePath : String)
    (x : GroupMemberRow × RepositoryRow) : Option GroupFetchRes :=
  let upstream := x.2.upstreamUrl.getD ""
  match fetch (upstream ++ "/packages/" ++ packagePath) with
  | .resp status body =>
      if 200 ≤ status ∧ status ≤ 299 then
        some { status := status, body := body, repositoryId := x.2.id,
               repositoryName := x.2.name, upstreamUrl := upstream }
      else none
  | .netErr => none

/-- `PypiController.tryGroupUpstreamFetch`: `null` without a group or
proxy members; otherwise the first member whose fetch is `ok`, and
`null` when every member fails (the caller then falls back to the
default upstream). -/
def tryGroupUpstreamFetch (st : Db) (groupId : Option String)
    (fetch : String → FetchRes) (packagePath : String) : Option GroupFetchRes :=
  match groupId with
  | none => none
  | some gid =>
    if (proxyMembersOf st gid).isEmpty then none
    else (proxyMembersOf st gid).findSome? (memberFetch fetch packagePath)

/-- Outcome of the cache-lookup pass: first artifact found (with its
bytes and the member repository's name), nothing found, or a storage
read that threw (the exception propagates out of the loop). -/
inductive LookupRes where
  | found (bytes : List Nat) (art : ArtifactRow) (repositoryName : String)
  | missing
  | storageFailure
deriving Repr, DecidableEq

/-- The member loop of `tryGroupLookup`: `getArtifact` per member, first
hit wins; a hit whose blob read fails throws out of the loop. -/
def tryGroupLookupGo (st : Db) (key version : String) :
    List (GroupMemberRow × RepositoryRow) → LookupRes
  | [] => .missing
  | x :: rest =>
    match findArtifactRow st x.2.id key version with
    | none => tryGroupLookupGo st key version rest
    | some a =>
      match getBlob st.blobs a.path with
      | none => .storageFailure
      | some b => .found b a x.2.name

/-- `tryGroupLookup` (PyPI, Maven and Docker controllers share the
structure): enumerate ALL group members by priority and return the first
cached artifact. -/
def tryGroupLookup (st : Db) (groupId : Option String) (key version : String) :
    LookupRes :=
  match groupId with
  | none => .missing
  | some gid => tryGroupLookupGo st key version (membersOf st gid)

/-! ## `DockerController.handleBlob` (GET) -/

/-- Substring test on char lists (JavaScript `String.prototype.includes`). -/
def hasSubList (needle : List Char) : List Char → Bool
  | [] => needle.isEmpty
  | c :: t => needle.isPrefixOf (c :: t) || hasSubList needle t

/-- JavaScript `s.includes(sub)`. -/
def strContains (s sub : String) : Bool := hasSubList sub.data s.data

/-- `DockerController.normalizeImageName`: official images (no slash)
get the `library/` prefix. -/
def normalizeImageName (name : String) : String :=
  if !strContains name "/" then "library/" ++ name else name

/-- An `Authorization` header value sent upstream. -/
inductive AuthHeader where
  | bearer (token : String)
  | basic (username password : String)
deriving Repr, DecidableEq

/-- The controller's configuration fields used by `handleBlob`. -/
structure DockerCfg where
  repositoryId : Option String
  dockerGroupId : Option String
  upstreamUrl : String
deriving Repr, DecidableEq

/-- A GET `/v2/<name>/blobs/<digest>` outcome: `success` carries the
`Docker-Content-Digest` header value and the body bytes; the error
constructors stand for the thrown 404 / 401 / 500 exceptions. -/
inductive BlobOutcome where
  | success (dockerContentDigest : String) (body : List Nat)
  | blobNotFound
  | unauthorized
  | internalError
deriving Repr, DecidableEq

/-- The member loop body of `tryGroupUpstreamFetchBlob`: Docker Hub
upstreams get image-name normalisation and a token; others may use Basic
auth from the member repository's credentials.  Non-`ok` statuses and
network errors fall through. -/
def memberFetchBlob (getToken : String → Option String)
    (fetch : String → Option AuthHeader → FetchRes) (name digest : String)
    (x : GroupMemberRow × RepositoryRow) : Option GroupFetchRes :=
  let upstream := x.2.upstreamUrl.getD ""
  let upstreamName := if strContains upstream "docker.io" then normalizeImageName name else name
  let token := if strContains upstream "docker.io" then getToken upstreamName else none
  let auth : Option AuthHeader :=
    match token with
    | some t => some (.bearer t)
    | none =>
      match x.2.upstreamUsername, x.2.upstreamPassword with
      | some u, some p => if u ≠ "" ∧ p ≠ "" then some (.basic u p) else none
      | _, _ => none
  match fetch (upstream ++ "/v2/" ++ upstreamName ++ "/blobs/" ++ digest) auth with
  | .resp status body =>
      if 200 ≤ status ∧ status ≤ 299 then
        some { status := status, body := body, repositoryId := x.2.id,
               repositoryName := x.2.name, upstreamUrl := upstream }
      else none
  | .netErr => none

/-- `DockerController.tryGroupUpstreamFetchBlob`. -/
def tryGroupUpstreamFetchBlob (st : Db) (groupId : Option String)
    (getToken : String → Option String) (fetch : String → Option AuthHeader → FetchRes)
    (name digest : String) : Option GroupFetchRes :=
  match groupId with
  | none => none
  | some gid =>
    if (proxyMembersOf st gid).isEmpty then none
    else (proxyMembersOf st gid).findSome? (memberFetchBlob getToken fetch name digest)

/-- `DockerController.handleBlob`, GET: cache lookup under the key
`<name>:blob:<digest>` (group pass, then the direct repository); on a
hit, stream the stored bytes with `Docker-Content-Digest` set to the
digest taken from the URL.  On a miss, fetch upstream (group pass, then
the default), map 404/401/other to errors, else stream the upstream
bytes — again echoing the URL's digest — and store them asynchronously
(store failures only logged).  No hash of the body is ever computed or
compared. -/
def handleBlobGET (st : Db) (now : Nat) (cfg : DockerCfg)
    (getToken : String → Option String) (fetch : String → Option AuthHeader → FetchRes)
    (name digest : String) : Db × BlobOutcome :=
  match cfg.repositoryId with
  | none => (st, .internalError)
  | some repositoryId =>
    let upstreamName := normalizeImageName name
    let artifactKey := name ++ ":blob:" ++ digest
    let groupCached := tryGroupLookup st cfg.dockerGroupId artifactKey digest
    match groupCached with
    | .storageFailure => (st, .internalError)
    | .found bytes _ _ => (st, .success digest bytes)
    | .missing =>
      match findArtifactRow st repositoryId artifactKey digest with
      | some a =>
        match getBlob st.blobs a.path with
        | none => (st, .internalError)
        | some bytes => (st, .success digest bytes)
      | none =>
        let groupFetch := tryGroupUpstreamFetchBlob st cfg.dockerGroupId getToken fetch
          name digest
        let fetched : FetchRes × String :=
          match groupFetch with
          | some g => (.resp g.status g.body, g.repositoryId)
          | none =>
            let token := getToken upstreamName
            (fetch (cfg.upstreamUrl ++ "/v2/" ++ upstreamName ++ "/blobs/" ++ digest)
              (token.map .bearer), repositoryId)
        match fetched.1 with
        | .netErr => (st, .internalError)
        | .resp status body =>
          if status = 404 then (st, .blobNotFound)
          else if status = 401 then (st, .unauthorized)
          else if ¬ (200 ≤ status ∧ status ≤ 299) then (st, .internalError)
          else
            let stored := storeArtifact st now
              { repositoryId := fetched.2, name := artifactKey, version := digest,
                bytes := body, contentType := "application/octet-stream",
                cacheTtl := none }
            (stored.1, .success digest body)

/-! ## Concrete fixtures for the witnesses and counterexamples -/

/-- A proxy repository with the default one-hour TTL. -/
def exRepo : RepositoryRow :=
  { id := "r1", name := "pypi", rtype := .PROXY, upstreamUrl := some "https://u0",
    upstreamUsername := none, upstreamPassword := none, cacheTtl := 3600 }

/-- A state with one repository and nothing stored. -/
def exDb0 : Db :=
  { repositories := [exRepo], artifacts := [], cacheEntries := [], groupMembers := [],
    blobs := [], nextId := 0 }

/-- A first store: artifact `p@1`, bytes `[0]`. -/
def exArgs1 : StoreArgs :=
  { repositoryId := "r1", name := "p", version := "1", bytes := [0],
    contentType := "x", cacheTtl := none }

/-- A second store of the same identity with different bytes `[1, 2]`. -/
def exArgs2 : StoreArgs :=
  { repositoryId := "r1", name := "p", version := "1", bytes := [1, 2],
    contentType := "x", cacheTtl := none }

/-- A store of the same identity with an explicit per-artifact TTL of 0. -/
def exArgsTtl0 : StoreArgs :=
  { repositoryId := "r1", name := "p", version := "1", bytes := [],
    contentType := "x", cacheTtl := some 0 }

/-- The state after the first store. -/
def exDb1 : Db := (storeArtifact exDb0 0 exArgs1).1

/-- A stored artifact row at path `P`. -/
def exArt : ArtifactRow :=
  { id := "a1", repositoryId := "r1", name := "p", version := "1", path := "P",
    size := 1, checksum := "c1", contentType := "x", cacheTtl := none }

/-- A cache entry for `exArt`, expired since epoch 0. -/
def exEntry : CacheEntryRow :=
  { id := "e1", key := "r1:p:1", repositoryId := "r1", artifactPath := "P",
    expiresAt := 0 }

/-- One expired artifact with its cache entry and blob, ready for an
eviction pass. -/
def exDbClean : Db :=
  { repositories := [exRepo], artifacts := [exArt], cacheEntries := [exEntry],
    groupMembers := [], blobs := [("P", [9])], nextId := 0 }

/-- A proxy member repository named `zeta`. -/
def repoZeta : RepositoryRow :=
  { id := "rz", name := "zeta", rtype := .PROXY, upstreamUrl := some "https://u1",
    upstreamUsername := none, upstreamPassword := none, cacheTtl := 60 }

/-- A proxy member repository named `alpha`. -/
def repoAlpha : RepositoryRow :=
  { id := "ra", name := "alpha", rtype := .PROXY, upstreamUrl := some "https://u2",
    upstreamUsername := none, upstreamPassword := none, cacheTtl := 60 }

/-- A group `g` whose members have priorities 1 (`zeta`) and 2 (`alpha`). -/
def exDbGroup : Db :=
  { repositories := [repoZeta, repoAlpha], artifacts := [], cacheEntries := [],
    groupMembers := [⟨"g", "rz", 1⟩, ⟨"g", "ra", 2⟩], blobs := [], nextId := 0 }

/-- An upstream where `zeta`'s mirror answers 500 and `alpha`'s answers
200 with body `[7]`. -/
def exFetch : String → FetchRes := fun url =>
  if url = "https://u2/packages/pp" then .resp 200 [7] else .resp 500 []

/-- A group `g` whose two members share priority 1, stored in the order
`zeta`, `alpha`. -/
def exDbTie : Db :=
  { repositories := [repoZeta, repoAlpha], artifacts := [], cacheEntries := [],
    groupMembers := [⟨"g", "rz", 1⟩, ⟨"g", "ra", 1⟩], blobs := [], nextId := 0 }

/-- A cached Docker blob whose key digest `bogus` is unrelated to its
bytes `[0]`. -/
def exDockerArt : ArtifactRow :=
  { id := "a2", repositoryId := "rd", name := "img:blob:bogus", version := "bogus",
    path := "PB", size := 1, checksum := "zz", contentType := "application/octet-stream",
    cacheTtl := none }

/-- The Docker controller's state holding `exDockerArt` and its blob. -/
def exDbDocker : Db :=
  { repositories := [], artifacts := [exDockerArt], cacheEntries := [],
    groupMembers := [], blobs := [("PB", [0])], nextId := 0 }

/-- Docker controller configuration without a group. -/
def exDockerCfg : DockerCfg :=
  { repositoryId := some "rd", dockerGroupId := none, upstreamUrl := "https://reg" }

/-! ## Helper lemmas -/

theorem hexChars_length (l : List Nat) : (hexChars l).length = 2 * l.length := by
  induction l with
  | nil => rfl
  | cons b t ih =>
    simp only [hexChars, List.foldr_cons, List.length_cons] at ih ⊢
    omega

theorem sha256_length (m : List Nat) : (sha256 m).length = 32 := by
  simp [sha256, wordBytes, List.length_append]

theorem sha256hexStr_length (m : List Nat) : (sha256hexStr m).length = 64 := by
  show (hexChars (sha256 m)).length = 64
  rw [hexChars_length, sha256_length]

theorem findSome?_append_first {α β : Type} (f : α → Option β) (l1 l2 : List α)
    (x : α) (r : β) (h1 : ∀ y ∈ l1, f y = none) (hx : f x = some r) :
    (l1 ++ x :: l2).findSome? f = some r := by
  induction l1 with
  | nil => simp [List.findSome?, hx]
  | cons a t ih =>
    have ha : f a = none := h1 a (by simp)
    simp only [List.cons_append, List.findSome?, ha]
    exact ih (fun y hy => h1 y (by simp [hy]))

theorem lowerCode_idem (n : Nat) : lowerCode (lowerCode n) = lowerCode n := by
  unfold lowerCode
  by_cases h : 65 ≤ n ∧ n ≤ 90
  · rw [if_pos h, if_neg (by omega : ¬ (65 ≤ n + 32 ∧ n + 32 ≤ 90))]
  · rw [if_neg h, if_neg h]

theorem collapseGo_map_lower (t : List Nat) (ht : ∀ c ∈ t, lowerCode c = c) :
    ∀ b, (collapseGo b t).map lowerCode = collapseGo b t := by
  induction t with
  | nil => intro b; rfl
  | cons c rest ih =>
    intro b
    have hc : lowerCode c = c := ht c (by simp)
    have hrest : ∀ x ∈ rest, lowerCode x = x := fun x hx => ht x (by simp [hx])
    by_cases hs : isSepCode c
    · cases b with
      | true => simpa [collapseGo, hs] using ih hrest true
      | false =>
        have h45 : lowerCode 45 = 45 := rfl
        simp [collapseGo, hs, h45, ih hrest true]
    · simp [collapseGo, hs, hc, ih hrest false]

theorem collapseGo_idem (t : List Nat) : ∀ b, collapseGo b (collapseGo b t) = collapseGo b t := by
  induction t with
  | nil => intro b; rfl
  | cons c rest ih =>
    intro b
    by_cases hs : isSepCode c
    · cases b with
      | true => simpa [collapseGo, hs] using ih true
      | false =>
        have h45 : isSepCode 45 = true := rfl
        simp [collapseGo, hs, h45, ih true]
    · simp [collapseGo, hs, ih false]

theorem isSafeCode_iff (n : Nat) : isSafeCode n = true ↔ n ∈ specSafeCodes := by
  simp only [isSafeCode, specSafeCodes, List.mem_append, List.mem_range'_1,
    List.mem_cons, List.not_mem_nil, or_false, Bool.or_eq_true, Bool.and_eq_true,
    decide_eq_true_eq, beq_iff_eq]
  omega

/-! ## The claims -/

/-- C7.  For every repository name, artifact name and version, the
derived storage key is `repositories/<repo-name>/<sanitised-name>/
<version>/artifact`, where sanitisation keeps exactly the code points of
the set `[A-Za-z0-9@/_.-]` and maps every other code point to `_`. -/
theorem generateStoragePath_spec (rn an v : String) :
    generateStoragePath rn an v =
      "repositories/" ++ rn ++ "/" ++
        String.mk (an.data.map (fun c => if c.toNat ∈ specSafeCodes then c else '_')) ++
        "/" ++ v ++ "/artifact" := by
  have hpt : ∀ c : Char,
      (if isSafeCode c.toNat then c else '_') =
        (if c.toNat ∈ specSafeCodes then c else '_') := by
    intro c
    by_cases h : isSafeCode c.toNat
    · rw [if_pos h, if_pos ((isSafeCode_iff _).mp h)]
    · rw [if_neg h, if_neg (fun hm => h ((isSafeCode_iff _).mpr hm))]
  unfold generateStoragePath sanitizeName
  simp only [hpt]

/-- C9.  The PyPI package-name normaliser (lower-case, then collapse
each run of `[._-]` to one dash) is idempotent. -/
theorem normalizePackageName_idempotent (x : List Nat) :
    normalizePackageName (normalizePackageName x) = normalizePackageName x := by
  unfold normalizePackageName
  have ht : ∀ c ∈ x.map lowerCode, lowerCode c = c := by
    intro c hc
    rcases List.mem_map.mp hc with ⟨d, _, rfl⟩
    exact lowerCode_idem d
  rw [collapseGo_map_lower (x.map lowerCode) ht false, collapseGo_idem]

/-- C10.  `storeArtifact` called with a repository id that matches no
repository row fails with the not-found error before any effect: the
returned state is exactly the input state (no object-store put, no
artifact row, no cache entry — and, by the effect order of the
definition, the input stream is not consumed). -/
theorem storeArtifact_missing_repo (st : Db) (now : Nat) (args : StoreArgs)
    (h : st.repositories.find? (fun r => decide (r.id = args.repositoryId)) = none) :
    storeArtifact st now args = (st, .error .repoNotFound) := by
  unfold storeArtifact
  rw [h]

/-- Witness for C10 at a concrete input: `exDb0` has no repository
`nope`, and the store returns the untouched state with the error. -/
theorem storeArtifact_missing_repo_witness :
    (exDb0.repositories.find? (fun r => decide (r.id = "nope")) = none) ∧
      storeArtifact exDb0 0
          { repositoryId := "nope", name := "p", version := "1", bytes := [0],
            contentType := "x", cacheTtl := none } =
        (exDb0, .error .repoNotFound) :=
  ⟨rfl, storeArtifact_missing_repo exDb0 0
    { repositoryId := "nope", name := "p", version := "1", bytes := [0],
      contentType := "x", cacheTtl := none } rfl⟩

/-- C3 (the code against the claim).  One eviction pass over a state
with a single expired cache entry whose artifact exists: the artifact
row and the blob are removed, but — the migrations declare no foreign
key from `cache_entries` to `artifacts`, so nothing cascades — the
expired cache entry is still present when the pass completes. -/
theorem cleanupExpiredCache_leaves_orphan_entry :
    (cleanupExpiredCache 1000 exDbClean).artifacts = [] ∧
    getBlob (cleanupExpiredCache 1000 exDbClean).blobs "P" = none ∧
    (cleanupExpiredCache 1000 exDbClean).cacheEntries = [exEntry] :=
  ⟨rfl, rfl, rfl⟩

/-- C5 counterexample.  Two members of equal priority stored in the
order `zeta`, `alpha`: both enumerations return them in table order,
not by repository name ascending. -/
theorem membersOf_tie_not_name_sorted :
    ((membersOf exDbTie "g").map (fun x => x.2.name) = ["zeta", "alpha"] ∧
      (proxyMembersOf exDbTie "g").map (fun x => x.2.name) = ["zeta", "alpha"]) ∧
    ["zeta", "alpha"] ≠ ["alpha", "zeta"] :=
  ⟨⟨rfl, rfl⟩, by decide⟩

/-- C5 amended.  Both enumerations are sorted by priority ascending
(the cache-lookup one is a permutation of the group's joined member
rows); the relative order of equal priorities is the table's, no name
tie-break exists. -/
theorem membersOf_sorted_by_priority (st : Db) (gid : String) :
    List.Sorted memberLe (membersOf st gid) ∧
    (membersOf st gid).Perm (joinedMembers st gid) ∧
    List.Sorted memberLe (proxyMembersOf st gid) :=
  ⟨List.sorted_insertionSort memberLe _, List.perm_insertionSort memberLe _,
    (List.sorted_insertionSort memberLe _).filter _⟩

/-- C1 amended.  `storeArtifact` on an identity whose Artifact row
already exists does not replace the row: the blob has already been
overwritten under the storage key, but `prisma.artifact.create` fails
with a unique-constraint violation and the artifact table is unchanged
(the surviving row is the first writer's). -/
theorem storeArtifact_existing_errors (st : Db) (now : Nat) (args : StoreArgs)
    (repo : RepositoryRow)
    (hr : st.repositories.find? (fun r => decide (r.id = args.repositoryId)) = some repo)
    (hd : st.artifacts.any (fun a => decide (a.repositoryId = args.repositoryId ∧
      a.name = args.name ∧ a.version = args.version)) = true) :
    (storeArtifact st now args).2 = .error .uniqueViolation ∧
    (storeArtifact st now args).1.artifacts = st.artifacts ∧
    (storeArtifact st now args).1.blobs =
      putBlob st.blobs (generateStoragePath repo.name args.name args.version) args.bytes := by
  unfold storeArtifact
  rw [hr, hd]
  simp

/-- Witness for the C1 theorem: after a first store of `p@1`, the
duplicate check holds and a second store errors. -/
theorem storeArtifact_existing_errors_witness :
    exDb1.artifacts.any (fun a => decide (a.repositoryId = "r1" ∧ a.name = "p" ∧
      a.version = "1")) = true ∧
    (storeArtifact exDb1 5 exArgs2).2 = .error .uniqueViolation :=
  ⟨rfl, (storeArtifact_existing_errors exDb1 5 exArgs2 exRepo rfl rfl).1⟩

/-- C1 counterexample.  A second store of `p@1` with different bytes
does not replace the existing row: it returns the unique-violation
error, the artifact table is exactly as after the first store, and yet
the blob under the storage key now holds the second writer's bytes. -/
theorem storeArtifact_second_write_not_replace :
    (storeArtifact exDb1 5 exArgs2).2 = .error .uniqueViolation ∧
    (storeArtifact exDb1 5 exArgs2).1.artifacts = exDb1.artifacts ∧
    getBlob (storeArtifact exDb1 5 exArgs2).1.blobs "repositories/pypi/p/1/artifact" =
      some [1, 2] :=
  ⟨rfl, rfl, rfl⟩

/-- C6 amended.  A successful `storeArtifact` appends exactly one cache
entry, keyed `<repository-id>:<name>:<version>`, whose expiry is the
insertion time plus 1000 times the per-artifact TTL when a NON-ZERO one
is supplied, and otherwise plus 1000 times the repository's default TTL
(a supplied 0 falls back, because the source uses JavaScript `||`). -/
theorem storeArtifact_cache_entry_ttl (st : Db) (now : Nat) (args : StoreArgs)
    (repo : RepositoryRow)
    (hr : st.repositories.find? (fun r => decide (r.id = args.repositoryId)) = some repo)
    (hd : st.artifacts.any (fun a => decide (a.repositoryId = args.repositoryId ∧
      a.name = args.name ∧ a.version = args.version)) = false)
    (hk : st.cacheEntries.any (fun e => decide (e.key =
      args.repositoryId ++ ":" ++ args.name ++ ":" ++ args.version)) = false) :
    (storeArtifact st now args).1.cacheEntries =
      st.cacheEntries ++
        [{ id := "id" ++ toString (st.nextId + 1),
           key := args.repositoryId ++ ":" ++ args.name ++ ":" ++ args.version,
           repositoryId := args.repositoryId,
           artifactPath := generateStoragePath repo.name args.name args.version,
           expiresAt := now + (match args.cacheTtl with
             | some t => if t = 0 then repo.cacheTtl else t
             | none => repo.cacheTtl) * 1000 }] ∧
    (storeArtifact st now args).2.isOk = true := by
  unfold storeArtifact
  rw [hr, hd, hk]
  exact ⟨rfl, rfl⟩

/-- Witness for the C6 theorem at a store with TTL `some 0` into the
empty state. -/
theorem storeArtifact_cache_entry_ttl_witness :
    exDb0.repositories.find? (fun r => decide (r.id = "r1")) = some exRepo ∧
    (storeArtifact exDb0 7 exArgsTtl0).1.cacheEntries =
      exDb0.cacheEntries ++
        [{ id := "id" ++ toString (exDb0.nextId + 1), key := "r1" ++ ":" ++ "p" ++ ":" ++ "1",
           repositoryId := "r1",
           artifactPath := generateStoragePath exRepo.name "p" "1",
           expiresAt := 7 + (match exArgsTtl0.cacheTtl with
             | some t => if t = 0 then exRepo.cacheTtl else t
             | none => exRepo.cacheTtl) * 1000 }] :=
  ⟨rfl, (storeArtifact_cache_entry_ttl exDb0 7 exArgsTtl0 exRepo rfl rfl rfl).1⟩

/-- C6 counterexample.  A store with a supplied per-artifact TTL of `0`
at time 7 succeeds but stamps `expires-at = 7 + 3600 * 1000` (the
repository default), not `7 + 0 * 1000` as the claim reads. -/
theorem storeArtifact_zero_ttl_falls_back :
    (storeArtifact exDb0 7 exArgsTtl0).2.isOk = true ∧
    (storeArtifact exDb0 7 exArgsTtl0).1.cacheEntries =
      [{ id := "id1", key := "r1:p:1", repositoryId := "r1",
         artifactPath := "repositories/pypi/p/1/artifact", expiresAt := 3600007 }] ∧
    (3600007 : Nat) ≠ 7 + 0 * 1000 :=
  ⟨rfl, rfl, by decide⟩

/-- C2 amended.  In the group upstream pass, a member whose fetch fails
— with ANY non-2xx status (404, 410, but also 5xx and 401) or with a
thrown network error — is skipped and the next member in priority order
is tried; the pass returns the first member whose fetch is `ok`, and
returns `null` (after which the caller falls back to the default
upstream) exactly when every member's fetch fails.  No failure aborts
the pass. -/
theorem tryGroupUpstreamFetch_fallthrough (st : Db) (gid : String)
    (fetch : String → FetchRes) (packagePath : String) :
    (tryGroupUpstreamFetch st (some gid) fetch packagePath = none ↔
      ∀ x ∈ proxyMembersOf st gid, memberFetch fetch packagePath x = none) ∧
    (∀ l1 x l2 r, proxyMembersOf st gid = l1 ++ x :: l2 →
      (∀ y ∈ l1, memberFetch fetch packagePath y = none) →
      memberFetch fetch packagePath x = some r →
      tryGroupUpstreamFetch st (some gid) fetch packagePath = some r) := by
  have key : tryGroupUpstreamFetch st (some gid) fetch packagePath =
      (proxyMembersOf st gid).findSome? (memberFetch fetch packagePath) := by
    show (if (proxyMembersOf st gid).isEmpty then none
        else (proxyMembersOf st gid).findSome? (memberFetch fetch packagePath)) =
      (proxyMembersOf st gid).findSome? (memberFetch fetch packagePath)
    cases hPm : proxyMembersOf st gid with
    | nil => rfl
    | cons y ys => rfl
  constructor
  · rw [key]
    exact List.findSome?_eq_none_iff
  · intro l1 x l2 r he h1 hx
    rw [key, he]
    exact findSome?_append_first _ l1 l2 x r h1 hx

/-- Witness for the C2 theorem: in `exDbGroup` the priority-1 member
`zeta` fails (500) and the priority-2 member `alpha` succeeds, so the
pass returns `alpha`'s response. -/
theorem tryGroupUpstreamFetch_fallthrough_witness :
    proxyMembersOf exDbGroup "g" =
      [(⟨"g", "rz", 1⟩, repoZeta), (⟨"g", "ra", 2⟩, repoAlpha)] ∧
    memberFetch exFetch "pp" (⟨"g", "rz", 1⟩, repoZeta) = none ∧
    memberFetch exFetch "pp" (⟨"g", "ra", 2⟩, repoAlpha) =
      some { status := 200, body := [7], repositoryId := "ra",
             repositoryName := "alpha", upstreamUrl := "https://u2" } ∧
    tryGroupUpstreamFetch exDbGroup (some "g") exFetch "pp" =
      some { status := 200, body := [7], repositoryId := "ra",
             repositoryName := "alpha", upstreamUrl := "https://u2" } :=
  ⟨rfl, rfl, rfl,
    (tryGroupUpstreamFetch_fallthrough exDbGroup "g" exFetch "pp").2
      [(⟨"g", "rz", 1⟩, repoZeta)] (⟨"g", "ra", 2⟩, repoAlpha) [] _ rfl
      (fun y hy => by
        rw [List.mem_singleton] at hy
        subst hy
        rfl)
      rfl⟩

/-- C2 counterexample.  The priority-1 member answers 500 — not 404/410
— yet the pass does not abort with that error: it falls through and
returns the priority-2 member's 200 response. -/
theorem tryGroupUpstreamFetch_500_falls_through :
    exFetch "https://u1/packages/pp" = .resp 500 [] ∧
    tryGroupUpstreamFetch exDbGroup (some "g") exFetch "pp" =
      some { status := 200, body := [7], repositoryId := "ra",
             repositoryName := "alpha", upstreamUrl := "https://u2" } :=
  ⟨rfl, rfl⟩

/-- C8 amended.  `deleteArtifact` removes the blob and then the
metadata row when the artifact exists; when no artifact matches it
fails with `NotFound` and leaves the state unchanged — so a second call
leaves the same state as one call (state idempotence), but the call is
not a successful no-op.  The hypothesis is the composite unique index
of the `artifacts` table. -/
theorem deleteArtifact_spec (st : Db) (rid n v : String) (hU : artifactKeyUnique st) :
    (deleteArtifact (deleteArtifact st rid n v).1 rid n v).1 = (deleteArtifact st rid n v).1 ∧
    (findArtifactRow st rid n v = none → deleteArtifact st rid n v = (st, .error .notFound)) ∧
    (∀ a, findArtifactRow st rid n v = some a →
      deleteArtifact st rid n v =
        ({ st with
            blobs := delBlob st.blobs a.path
            artifacts := st.artifacts.filter (fun x => decide (x.id ≠ a.id)) },
          .ok ())) := by
  refine ⟨?_, ?_, ?_⟩
  · cases h : findArtifactRow st rid n v with
    | none => simp [deleteArtifact, h]
    | some a =>
      have h' : st.artifacts.find?
          (fun x => decide (x.repositoryId = rid ∧ x.name = n ∧ x.version = v)) = some a := h
      have ha_mem : a ∈ st.artifacts := List.mem_of_find?_eq_some h'
      have ha_pred := List.find?_some h'
      have hKa : a.repositoryId = rid ∧ a.name = n ∧ a.version = v := of_decide_eq_true ha_pred
      have hnone : findArtifactRow
          { st with
            blobs := delBlob st.blobs a.path
            artifacts := st.artifacts.filter (fun x => !decide (x.id = a.id)) } rid n v = none := by
        unfold findArtifactRow
        rw [List.find?_eq_none]
        intro x hx hpx
        have hx2 := List.mem_filter.mp hx
        have hKx : x.repositoryId = rid ∧ x.name = n ∧ x.version = v := of_decide_eq_true hpx
        have hxa : x = a := by
          apply hU x hx2.1 a ha_mem
          · rw [hKx.1, hKa.1]
          · rw [hKx.2.1, hKa.2.1]
          · rw [hKx.2.2, hKa.2.2]
        have hid : ¬ x.id = a.id := by simpa using hx2.2
        exact hid (by rw [hxa])
      simp [deleteArtifact, h, hnone]
  · intro h
    simp [deleteArtifact, h]
  · intro a ha
    simp [deleteArtifact, ha]

/-- Witness for the C8 theorem on `exDbClean`, whose single artifact is
deleted: blob first, then the row; a repeat call changes nothing. -/
theorem deleteArtifact_spec_witness :
    artifactKeyUnique exDbClean ∧
    (deleteArtifact (deleteArtifact exDbClean "r1" "p" "1").1 "r1" "p" "1").1 =
      (deleteArtifact exDbClean "r1" "p" "1").1 ∧
    deleteArtifact exDbClean "r1" "p" "1" =
      ({ exDbClean with
          blobs := delBlob exDbClean.blobs exArt.path
          artifacts := exDbClean.artifacts.filter (fun x => decide (x.id ≠ exArt.id)) },
        .ok ()) := by
  have hu : artifactKeyUnique exDbClean := by
    unfold artifactKeyUnique
    decide
  exact ⟨hu, (deleteArtifact_spec exDbClean "r1" "p" "1" hu).1,
    (deleteArtifact_spec exDbClean "r1" "p" "1" hu).2.2 exArt rfl⟩

/-- C8 counterexample.  Deleting an identity with no stored artifact
does not succeed as a no-op: it fails with the not-found error (the
state is unchanged). -/
theorem deleteArtifact_missing_fails :
    deleteArtifact exDb0 "r1" "p" "1" = (exDb0, .error .notFound) := rfl

/-- C4 amended.  A Docker blob GET that finds the cache key
`<name>:blob:<digest>` succeeds with the stored bytes and echoes the
URL's digest in `Docker-Content-Digest`; no SHA-256 of the body is
computed or compared anywhere in the handler, so the outcome does not
depend on any relation between the digest and the bytes. -/
theorem handleBlobGET_no_digest_check (st : Db) (now : Nat) (cfg : DockerCfg)
    (getToken : String → Option String) (fetch : String → Option AuthHeader → FetchRes)
    (name digest rid : String) (a : ArtifactRow) (bytes : List Nat)
    (hrid : cfg.repositoryId = some rid) (hg : cfg.dockerGroupId = none)
    (ha : findArtifactRow st rid (name ++ ":blob:" ++ digest) digest = some a)
    (hb : getBlob st.blobs a.path = some bytes) :
    handleBlobGET st now cfg getToken fetch name digest = (st, .success digest bytes) := by
  simp [handleBlobGET, hrid, hg, tryGroupLookup, ha, hb]

/-- Witness for the C4 theorem on the cached blob of `exDbDocker`. -/
theorem handleBlobGET_no_digest_check_witness :
    findArtifactRow exDbDocker "rd" ("img" ++ ":blob:" ++ "bogus") "bogus" = some exDockerArt ∧
    getBlob exDbDocker.blobs exDockerArt.path = some [0] ∧
    handleBlobGET exDbDocker 0 exDockerCfg (fun _ => none) (fun _ _ => .netErr) "img" "bogus" =
      (exDbDocker, .success "bogus" [0]) :=
  ⟨rfl, rfl,
    handleBlobGET_no_digest_check exDbDocker 0 exDockerCfg (fun _ => none)
      (fun _ _ => .netErr) "img" "bogus" "rd" exDockerArt [0] rfl rfl rfl rfl⟩

/-- C4 counterexample.  The blob request for digest `bogus` completes
successfully with body `[0]`, yet the SHA-256 of `[0]` (a 64-character
hex string, with or without the `sha256:` prefix) cannot equal `bogus`:
the handler performed no verification. -/
theorem handleBlobGET_digest_mismatch_succeeds :
    (handleBlobGET exDbDocker 0 exDockerCfg (fun _ => none) (fun _ _ => .netErr)
        "img" "bogus").2 = .success "bogus" [0] ∧
    sha256hexStr [0] ≠ "bogus" ∧
    "sha256:" ++ sha256hexStr [0] ≠ "bogus" := by
  refine ⟨rfl, ?_, ?_⟩
  · intro hEq
    have hLen := congrArg String.length hEq
    rw [sha256hexStr_length] at hLen
    exact absurd hLen (by decide)
  · intro hEq
    have hLen := congrArg String.length hEq
    rw [String.length_append, sha256hexStr_length] at hLen
    exact absurd hLen (by decide)

end Amargo
